import Mathlib

/-!
Verification of the marshaling codec and the request-body stream adapter in
`src/native/http_request_utils.c`.

Bytes are modelled as natural numbers (writers only ever emit values `< 256`,
produced by `% 256`); buffers and cursors are lists of bytes, a cursor being
the list of bytes still to be consumed.  Machine `uint32_t` arithmetic is made
explicit with `% 2 ^ 32`.  The fallible C functions return their
success/failure code (`AWS_OP_SUCCESS` / `AWS_OP_ERR`, the latter optionally
with the error code passed to `aws_raise_error`) together with the final state
of whatever object they mutate.
-/

/-- Error codes raised (via `aws_raise_error`) by the functions under study. -/
inductive AwsError where
  | AWS_ERROR_INVALID_ARGUMENT
  | AWS_ERROR_HTTP_INVALID_BODY_STREAM
  | AWS_ERROR_HTTP_CALLBACK_FAILURE
  deriving DecidableEq, Repr

/-- Result code of a fallible call: `AWS_OP_SUCCESS`, or `AWS_OP_ERR` after
`aws_raise_error e` (constructor `AWS_OP_ERR_raised e`), or a plain
`return AWS_OP_ERR` that raises no error code of its own. -/
inductive OpResult where
  | AWS_OP_SUCCESS
  | AWS_OP_ERR_raised (e : AwsError)
  | AWS_OP_ERR
  deriving DecidableEq, Repr

/-- Modelled from the spec: `aws_byte_cursor_read_be32` lives in aws-c-common,
which is not part of this source tree.  Per the spec, every length/version
prefix is a 4-byte big-endian unsigned integer; the read succeeds exactly when
at least 4 bytes remain, consuming them, and otherwise fails leaving the
cursor unchanged. -/
def aws_byte_cursor_read_be32 : List Nat → Option (Nat × List Nat)
  | b0 :: b1 :: b2 :: b3 :: rest => some (((b0 * 256 + b1) * 256 + b2) * 256 + b3, rest)
  | _ => none

/-- Modelled from the spec: `aws_byte_cursor_advance` lives in aws-c-common,
which is not part of this source tree.  Per the spec an LP field is
`length:u32be | bytes[length]` and "any length field whose value would read
past the end of the remaining buffer is a decode error", so advancing by more
than the remaining length fails. -/
def aws_byte_cursor_advance (cur : List Nat) (len : Nat) : Option (List Nat × List Nat) :=
  if len ≤ cur.length then some (cur.take len, cur.drop len) else none

/-- One HTTP header: a (name, value) pair of byte strings. -/
structure aws_http_header where
  name : List Nat
  value : List Nat
  deriving DecidableEq, Repr

/-- Modelled from the spec: version values are "an enumeration matching
{HTTP/1.0, HTTP/1.1, HTTP/2}" whose numeric encoding matches the HTTP
engine's `enum aws_http_version` (UNKNOWN = 0, 1_0 = 1, 1_1 = 2, 2 = 3). -/
def AWS_HTTP_VERSION_UNKNOWN : Nat := 0

/-- HTTP/1.0 protocol version enumeration value. -/
def AWS_HTTP_VERSION_1_0 : Nat := 1

/-- HTTP/1.1 protocol version enumeration value. -/
def AWS_HTTP_VERSION_1_1 : Nat := 2

/-- HTTP/2 protocol version enumeration value. -/
def AWS_HTTP_VERSION_2 : Nat := 3

/-- Modelled from the spec: the HTTP engine's request object (aws-c-http is
not part of this source tree).  A request owns a protocol version, method and
path byte strings, and an ordered header list (duplicates allowed, insertion
order preserved). -/
structure aws_http_message where
  version : Nat
  method : List Nat
  path : List Nat
  headers : List aws_http_header
  deriving DecidableEq, Repr

/-- The four bytes written by `aws_byte_buf_write_be32`: the low 32 bits of
`n`, big-endian. -/
def be32Bytes (n : Nat) : List Nat :=
  [n / 2 ^ 24 % 256, n / 2 ^ 16 % 256, n / 2 ^ 8 % 256, n % 256]

/-- Modelled from the spec: `aws_byte_buf_write_be32` (aws-c-common) appends a
4-byte big-endian encoding of the given 32-bit value to the buffer. -/
def aws_byte_buf_write_be32 (buf : List Nat) (n : Nat) : List Nat :=
  buf ++ be32Bytes n

/-- `s_marshal_http_header_to_buffer`: append `len(name):u32be, name bytes,
len(value):u32be, value bytes` to the buffer.  `aws_byte_buf_reserve_relative`
only grows the allocation (its only failure is allocation failure, which is
outside this model), and `aws_byte_buf_write_from_whole_cursor` appends the
cursor bytes. -/
def s_marshal_http_header_to_buffer (buf : List Nat) (name value : List Nat) : List Nat :=
  aws_byte_buf_write_be32 (aws_byte_buf_write_be32 buf name.length ++ name) value.length ++ value

/-- `aws_marshal_http_headers_to_dynamic_buffer`: marshal each header of the
array in order. -/
def aws_marshal_http_headers_to_dynamic_buffer :
    List Nat → List aws_http_header → List Nat
  | buf, [] => buf
  | buf, h :: rest =>
    aws_marshal_http_headers_to_dynamic_buffer
      (s_marshal_http_header_to_buffer buf h.name h.value) rest

/-- `s_marshall_http_request`: write the version (u32be), then method LP, then
path LP, then all headers. -/
def s_marshall_http_request (message : aws_http_message) (request_buf : List Nat) : List Nat :=
  let request_buf := aws_byte_buf_write_be32 request_buf message.version
  let request_buf := aws_byte_buf_write_be32 request_buf message.method.length
  let request_buf := request_buf ++ message.method
  let request_buf := aws_byte_buf_write_be32 request_buf message.path.length
  let request_buf := request_buf ++ message.path
  aws_marshal_http_headers_to_dynamic_buffer request_buf message.headers

/-- The body of the `while (request_blob->len)` header-decoding loop, shared
(in the C source it is written out twice, once in
`s_unmarshal_http_request_without_version` over `aws_http_message_add_header`
and once in `s_unmarshal_http_headers` over `aws_http_headers_add_header`;
the two loop bodies are token-for-token identical).  The `fuel` argument
bounds the number of iterations; every iteration consumes at least 8 bytes of
the blob, so starting the loop with `fuel = blob.length` (as the wrappers
below do) can never hit the fuel-exhaustion branch. -/
def s_unmarshal_http_headers_loop (fuel : Nat) (headers : List aws_http_header)
    (request_blob : List Nat) : OpResult × List aws_http_header :=
  if request_blob.isEmpty then (.AWS_OP_SUCCESS, headers)
  else
    match fuel with
    | 0 => (.AWS_OP_ERR_raised .AWS_ERROR_INVALID_ARGUMENT, headers)
    | fuel + 1 =>
      match aws_byte_cursor_read_be32 request_blob with
      | none => (.AWS_OP_ERR_raised .AWS_ERROR_INVALID_ARGUMENT, headers)
      | some (nameLen, r1) =>
        match aws_byte_cursor_advance r1 nameLen with
        | none => (.AWS_OP_ERR_raised .AWS_ERROR_INVALID_ARGUMENT, headers)
        | some (header_name, r2) =>
          match aws_byte_cursor_read_be32 r2 with
          | none => (.AWS_OP_ERR_raised .AWS_ERROR_INVALID_ARGUMENT, headers)
          | some (valueLen, r3) =>
            match aws_byte_cursor_advance r3 valueLen with
            | none => (.AWS_OP_ERR_raised .AWS_ERROR_INVALID_ARGUMENT, headers)
            | some (header_value, r4) =>
              s_unmarshal_http_headers_loop fuel
                (headers ++ [⟨header_name, header_value⟩]) r4

/-- `s_unmarshal_http_headers`: run the header-decoding loop over the whole
blob, appending each decoded pair to `headers` in order.  Returns the result
code together with the final state of the headers object (which in C is
mutated in place, so headers decoded before a failure remain added). -/
def s_unmarshal_http_headers (headers : List aws_http_header) (request_blob : List Nat) :
    OpResult × List aws_http_header :=
  s_unmarshal_http_headers_loop request_blob.length headers request_blob

/-- `s_unmarshal_http_request_without_version`: for a non-HTTP/2 message read
method LP and path LP and apply them to the message; for HTTP/2 read the same
two LP fields but require both lengths to be zero; then decode the remaining
blob as headers, appending to the message.  Returns the result code together
with the final state of the message (mutated in place in C, so fields set
before a failure keep their new values). -/
def s_unmarshal_http_request_without_version (message : aws_http_message)
    (request_blob : List Nat) : OpResult × aws_http_message :=
  if message.version ≠ AWS_HTTP_VERSION_2 then
    match aws_byte_cursor_read_be32 request_blob with
    | none => (.AWS_OP_ERR_raised .AWS_ERROR_INVALID_ARGUMENT, message)
    | some (field_len, r1) =>
      match aws_byte_cursor_advance r1 field_len with
      | none => (.AWS_OP_ERR_raised .AWS_ERROR_INVALID_ARGUMENT, message)
      | some (method, r2) =>
        let message := { message with method := method }
        match aws_byte_cursor_read_be32 r2 with
        | none => (.AWS_OP_ERR_raised .AWS_ERROR_INVALID_ARGUMENT, message)
        | some (field_len2, r3) =>
          match aws_byte_cursor_advance r3 field_len2 with
          | none => (.AWS_OP_ERR_raised .AWS_ERROR_INVALID_ARGUMENT, message)
          | some (path, r4) =>
            let message := { message with path := path }
            let out := s_unmarshal_http_headers message.headers r4
            (out.1, { message with headers := out.2 })
  else
    match aws_byte_cursor_read_be32 request_blob with
    | none => (.AWS_OP_ERR_raised .AWS_ERROR_INVALID_ARGUMENT, message)
    | some (field_len, r1) =>
      if field_len ≠ 0 then (.AWS_OP_ERR_raised .AWS_ERROR_INVALID_ARGUMENT, message)
      else
        match aws_byte_cursor_read_be32 r1 with
        | none => (.AWS_OP_ERR_raised .AWS_ERROR_INVALID_ARGUMENT, message)
        | some (field_len2, r2) =>
          if field_len2 ≠ 0 then (.AWS_OP_ERR_raised .AWS_ERROR_INVALID_ARGUMENT, message)
          else
            let out := s_unmarshal_http_headers message.headers r2
            (out.1, { message with headers := out.2 })

/-- `s_unmarshal_http_request_to_get_version`: read the 4-byte version field.
On a short blob the C function raises `AWS_ERROR_INVALID_ARGUMENT` but still
returns the zero-initialized `version` local (= `AWS_HTTP_VERSION_UNKNOWN`)
with the cursor unchanged; its caller then compares that value against the
destination version. -/
def s_unmarshal_http_request_to_get_version (request_blob : List Nat) : Nat × List Nat :=
  match aws_byte_cursor_read_be32 request_blob with
  | some (version, rest) => (version, rest)
  | none => (AWS_HTTP_VERSION_UNKNOWN, request_blob)

/-- `aws_apply_java_http_request_changes_to_native_request` (decode-in-place,
JNI byte-array plumbing and the body-stream attach elided): unconditionally
clear the existing headers, read the version field, reject on version
mismatch, otherwise decode the rest of the frame into the message.  Returns
the result code together with the final state of the message. -/
def aws_apply_java_http_request_changes_to_native_request (message : aws_http_message)
    (marshalled_request : List Nat) : OpResult × aws_http_message :=
  let message := { message with headers := [] }
  let vr := s_unmarshal_http_request_to_get_version marshalled_request
  if vr.1 ≠ message.version then
    (.AWS_OP_ERR_raised .AWS_ERROR_INVALID_ARGUMENT, message)
  else
    s_unmarshal_http_request_without_version message vr.2

/-- `struct aws_http_request_body_stream_impl`: the adapter state.  The
`jobject http_request_body_stream` handle is modelled by whether it is
non-NULL (true when a producer object is attached via a global reference). -/
structure aws_http_request_body_stream_impl where
  http_request_body_stream : Bool
  body_done : Bool
  is_valid : Bool
  deriving DecidableEq, Repr

/-- `struct aws_byte_buf` as far as the adapter touches it: its current
length and its capacity (the byte contents never influence control flow). -/
structure aws_byte_buf where
  len : Nat
  capacity : Nat
  deriving DecidableEq, Repr

/-- `struct aws_stream_status`. -/
structure aws_stream_status where
  is_end_of_stream : Bool
  is_valid : Bool
  deriving DecidableEq, Repr

/-- `enum aws_stream_seek_basis`. -/
inductive aws_stream_seek_basis where
  | AWS_SSB_BEGIN
  | AWS_SSB_END
  deriving DecidableEq, Repr

/-- Outcome of the foreign-runtime interaction during one `seek` call:
whether `aws_jni_acquire_thread_env` yields an environment, the boolean
returned by the producer's `resetPosition` callback, and whether a foreign
exception is pending afterwards. -/
structure SeekCallEnv where
  env_available : Bool
  reset_result : Bool
  reset_exception : Bool
  deriving DecidableEq, Repr

/-- Outcome of the foreign-runtime interaction during one `read` call:
environment availability, the boolean returned by the producer's
`sendOutgoingBody` callback (true = final chunk), whether a foreign exception
is pending afterwards, and the byte count read back from the direct buffer
position marker. -/
structure ReadCallEnv where
  env_available : Bool
  send_result : Bool
  send_exception : Bool
  bytes_written : Nat
  deriving DecidableEq, Repr

/-- Outcome of the foreign-runtime interaction during one `get_length` call:
environment availability, the value returned by the producer's `getLength`
callback, and whether a foreign exception is pending afterwards. -/
structure LengthCallEnv where
  env_available : Bool
  length_value : Int
  length_exception : Bool
  deriving DecidableEq, Repr

/-- `s_aws_input_stream_seek`: reject when invalid; with a producer attached,
reject any basis/offset other than (BEGIN, 0), then acquire the JNI
environment (plain `AWS_OP_ERR` when unavailable) and invoke `resetPosition`,
mapping a false return or a pending foreign exception to
`AWS_ERROR_HTTP_CALLBACK_FAILURE`; finally clear `body_done` exactly when the
result is success.  Returns the result code and the final adapter state. -/
def s_aws_input_stream_seek (impl : aws_http_request_body_stream_impl) (offset : Int)
    (basis : aws_stream_seek_basis) (env : SeekCallEnv) :
    OpResult × aws_http_request_body_stream_impl :=
  if !impl.is_valid then
    (.AWS_OP_ERR_raised .AWS_ERROR_HTTP_INVALID_BODY_STREAM, impl)
  else if impl.http_request_body_stream then
    if basis ≠ .AWS_SSB_BEGIN ∨ offset ≠ 0 then (.AWS_OP_ERR, impl)
    else if !env.env_available then (.AWS_OP_ERR, impl)
    else
      let result : OpResult :=
        if !env.reset_result then .AWS_OP_ERR_raised .AWS_ERROR_HTTP_CALLBACK_FAILURE
        else if env.reset_exception then .AWS_OP_ERR_raised .AWS_ERROR_HTTP_CALLBACK_FAILURE
        else .AWS_OP_SUCCESS
      if result = .AWS_OP_SUCCESS then (result, { impl with body_done := false })
      else (result, impl)
  else
    (.AWS_OP_SUCCESS, { impl with body_done := false })

/-- `s_aws_input_stream_read`: reject when invalid; with no producer attached
mark `body_done` and succeed; when already `body_done` succeed untouched;
otherwise acquire the JNI environment (plain `AWS_OP_ERR` when unavailable),
invoke `sendOutgoingBody` (its boolean return is stored into `body_done`
unconditionally), then either report `AWS_ERROR_HTTP_CALLBACK_FAILURE` on a
pending foreign exception, or add the position marker back into `dest.len`.
Returns the result code, the final adapter state and the final buffer. -/
def s_aws_input_stream_read (impl : aws_http_request_body_stream_impl) (dest : aws_byte_buf)
    (env : ReadCallEnv) : OpResult × aws_http_request_body_stream_impl × aws_byte_buf :=
  if !impl.is_valid then
    (.AWS_OP_ERR_raised .AWS_ERROR_HTTP_INVALID_BODY_STREAM, impl, dest)
  else if !impl.http_request_body_stream then
    (.AWS_OP_SUCCESS, { impl with body_done := true }, dest)
  else if impl.body_done then
    (.AWS_OP_SUCCESS, impl, dest)
  else if !env.env_available then
    (.AWS_OP_ERR, impl, dest)
  else
    let impl := { impl with body_done := env.send_result }
    if env.send_exception then
      (.AWS_OP_ERR_raised .AWS_ERROR_HTTP_CALLBACK_FAILURE, impl, dest)
    else
      (.AWS_OP_SUCCESS, impl, { dest with len := dest.len + env.bytes_written })

/-- `s_aws_input_stream_get_status`: always succeeds, reporting `body_done`
and `is_valid`. -/
def s_aws_input_stream_get_status (impl : aws_http_request_body_stream_impl) :
    OpResult × aws_stream_status :=
  (.AWS_OP_SUCCESS, { is_end_of_stream := impl.body_done, is_valid := impl.is_valid })

/-- `s_aws_input_stream_get_length`: with a producer attached, acquire the
JNI environment (plain `AWS_OP_ERR` when unavailable) and invoke `getLength`,
writing its value through the out-parameter (second component) and mapping a
pending foreign exception to `AWS_ERROR_HTTP_CALLBACK_FAILURE`; with no
producer, plain `AWS_OP_ERR`.  Note the C function never consults
`is_valid`. -/
def s_aws_input_stream_get_length (impl : aws_http_request_body_stream_impl)
    (env : LengthCallEnv) : OpResult × Option Int :=
  if impl.http_request_body_stream then
    if !env.env_available then (.AWS_OP_ERR, none)
    else if env.length_exception then
      (.AWS_OP_ERR_raised .AWS_ERROR_HTTP_CALLBACK_FAILURE, some env.length_value)
    else (.AWS_OP_SUCCESS, some env.length_value)
  else (.AWS_OP_ERR, none)

/-- `aws_input_stream_new_from_java_http_request_body_stream` (allocation and
the global-reference failure path elided): `calloc` zero-initializes the
state, `is_valid` is set true, and when no producer handle is supplied
`body_done` is set true immediately. -/
def aws_input_stream_new_from_java_http_request_body_stream
    (http_request_body_stream : Bool) : aws_http_request_body_stream_impl :=
  { http_request_body_stream := http_request_body_stream
    body_done := !http_request_body_stream
    is_valid := true }

/-- C5: a Body Stream Adapter constructed with no producer handle has
`body_done` true immediately (so `GetStatus` reports end-of-stream), and every
`Read` on such a valid adapter succeeds, appends zero bytes to the
destination buffer, and leaves `body_done` true. -/
theorem claim_C5 :
    (aws_input_stream_new_from_java_http_request_body_stream false).body_done = true
    ∧ (s_aws_input_stream_get_status
        (aws_input_stream_new_from_java_http_request_body_stream false)).2.is_end_of_stream = true
    ∧ ∀ (impl : aws_http_request_body_stream_impl) (dest : aws_byte_buf) (env : ReadCallEnv),
        impl.http_request_body_stream = false → impl.is_valid = true →
        s_aws_input_stream_read impl dest env =
          (.AWS_OP_SUCCESS, { impl with body_done := true }, dest) := by
  refine ⟨rfl, rfl, ?_⟩
  intro impl dest env h1 h2
  simp [s_aws_input_stream_read, h1, h2]

/-- Witness for C5 at a concrete adapter, buffer and call environment. -/
theorem claim_C5_witness :
    s_aws_input_stream_read ⟨false, true, true⟩ ⟨0, 16⟩ ⟨true, true, false, 4⟩ =
      (.AWS_OP_SUCCESS, ⟨false, true, true⟩, ⟨0, 16⟩) :=
  claim_C5.2.2 ⟨false, true, true⟩ ⟨0, 16⟩ ⟨true, true, false, 4⟩ rfl rfl

/-- C6 counterexample: the claim quantifies over every valid adapter, but a
valid adapter with no producer attached succeeds on a seek whose basis is not
from-start (the basis/offset check sits inside the producer-attached branch),
so the claimed universal failure is false. -/
theorem claim_C6_counterexample :
    s_aws_input_stream_seek ⟨false, true, true⟩ 5 .AWS_SSB_END ⟨true, true, false⟩ =
      (.AWS_OP_SUCCESS, ⟨false, false, true⟩) := by
  decide

/-- C6 (amended): for every valid adapter with a producer attached, a Seek
whose basis is not from-start or whose offset is non-zero fails (plain
`AWS_OP_ERR`), leaves the adapter unchanged, and never invokes the producer
(the outcome is the same for every call environment). -/
theorem claim_C6_amended (impl : aws_http_request_body_stream_impl) (offset : Int)
    (basis : aws_stream_seek_basis) (env : SeekCallEnv)
    (hv : impl.is_valid = true) (hs : impl.http_request_body_stream = true)
    (hbad : basis ≠ .AWS_SSB_BEGIN ∨ offset ≠ 0) :
    s_aws_input_stream_seek impl offset basis env = (.AWS_OP_ERR, impl) := by
  simp [s_aws_input_stream_seek, hv, hs, hbad]

/-- Witness for the amended C6 at a concrete adapter and non-zero offset. -/
theorem claim_C6_witness :
    s_aws_input_stream_seek ⟨true, false, true⟩ 3 .AWS_SSB_BEGIN ⟨true, true, false⟩ =
      (.AWS_OP_ERR, ⟨true, false, true⟩) :=
  claim_C6_amended ⟨true, false, true⟩ 3 .AWS_SSB_BEGIN ⟨true, true, false⟩ rfl rfl
    (Or.inr (by decide))

/-- C7: on a valid adapter with no producer, Seek always succeeds and clears
`body_done`; with a producer, a Seek(FromStart, 0) whose callback returns
true without a foreign exception succeeds and clears `body_done`, while one
whose callback returns false or raises a foreign exception fails with the
callback-failure error and leaves `body_done` (indeed the whole adapter)
unchanged. -/
theorem claim_C7 :
    (∀ (impl : aws_http_request_body_stream_impl) (offset : Int)
        (basis : aws_stream_seek_basis) (env : SeekCallEnv),
        impl.is_valid = true → impl.http_request_body_stream = false →
        s_aws_input_stream_seek impl offset basis env =
          (.AWS_OP_SUCCESS, { impl with body_done := false }))
    ∧ (∀ (impl : aws_http_request_body_stream_impl) (env : SeekCallEnv),
        impl.is_valid = true → impl.http_request_body_stream = true →
        env.env_available = true → env.reset_result = true → env.reset_exception = false →
        s_aws_input_stream_seek impl 0 .AWS_SSB_BEGIN env =
          (.AWS_OP_SUCCESS, { impl with body_done := false }))
    ∧ (∀ (impl : aws_http_request_body_stream_impl) (env : SeekCallEnv),
        impl.is_valid = true → impl.http_request_body_stream = true →
        env.env_available = true → (env.reset_result = false ∨ env.reset_exception = true) →
        s_aws_input_stream_seek impl 0 .AWS_SSB_BEGIN env =
          (.AWS_OP_ERR_raised .AWS_ERROR_HTTP_CALLBACK_FAILURE, impl)) := by
  refine ⟨?_, ?_, ?_⟩
  · intro impl offset basis env hv hs
    simp [s_aws_input_stream_seek, hv, hs]
  · intro impl env hv hs he hr hx
    simp [s_aws_input_stream_seek, hv, hs, he, hr, hx]
  · intro impl env hv hs he hbad
    rcases hbad with hr | hx
    · simp [s_aws_input_stream_seek, hv, hs, he, hr]
    · cases hr : env.reset_result <;>
        simp [s_aws_input_stream_seek, hv, hs, he, hr, hx]

/-- Witness for C7: all three cases at concrete adapters and environments. -/
theorem claim_C7_witness :
    s_aws_input_stream_seek ⟨false, true, true⟩ 2 .AWS_SSB_END ⟨false, false, false⟩ =
        (.AWS_OP_SUCCESS, ⟨false, false, true⟩)
    ∧ s_aws_input_stream_seek ⟨true, true, true⟩ 0 .AWS_SSB_BEGIN ⟨true, true, false⟩ =
        (.AWS_OP_SUCCESS, ⟨true, false, true⟩)
    ∧ s_aws_input_stream_seek ⟨true, true, true⟩ 0 .AWS_SSB_BEGIN ⟨true, false, false⟩ =
        (.AWS_OP_ERR_raised .AWS_ERROR_HTTP_CALLBACK_FAILURE, ⟨true, true, true⟩) :=
  ⟨claim_C7.1 ⟨false, true, true⟩ 2 .AWS_SSB_END ⟨false, false, false⟩ rfl rfl,
   claim_C7.2.1 ⟨true, true, true⟩ ⟨true, true, false⟩ rfl rfl rfl rfl rfl,
   claim_C7.2.2 ⟨true, true, true⟩ ⟨true, false, false⟩ rfl rfl rfl (Or.inl rfl)⟩

/-- C8 counterexample: `s_aws_input_stream_get_length` never consults
`is_valid`, so on an invalidated adapter with a producer attached and a
healthy call environment it succeeds instead of failing as claimed. -/
theorem claim_C8_counterexample :
    s_aws_input_stream_get_length ⟨true, false, false⟩ ⟨true, 7, false⟩ =
      (.AWS_OP_SUCCESS, some 7) := by
  decide

/-- C8 (amended): on an adapter whose `is_valid` flag is false, Read and Seek
fail with the invalid-body-stream error, GetStatus still succeeds and reports
valid = false, and GetLength ignores `is_valid`: it fails (plain
`AWS_OP_ERR`) exactly when no producer is attached, and otherwise behaves
according to the call environment alone, succeeding with the callback value
on a healthy call. -/
theorem claim_C8_amended (impl : aws_http_request_body_stream_impl)
    (dest : aws_byte_buf) (renv : ReadCallEnv) (offset : Int)
    (basis : aws_stream_seek_basis) (senv : SeekCallEnv) (lenv : LengthCallEnv)
    (hv : impl.is_valid = false) :
    s_aws_input_stream_read impl dest renv =
      (.AWS_OP_ERR_raised .AWS_ERROR_HTTP_INVALID_BODY_STREAM, impl, dest)
    ∧ s_aws_input_stream_seek impl offset basis senv =
      (.AWS_OP_ERR_raised .AWS_ERROR_HTTP_INVALID_BODY_STREAM, impl)
    ∧ s_aws_input_stream_get_status impl =
      (.AWS_OP_SUCCESS, { is_end_of_stream := impl.body_done, is_valid := false })
    ∧ (impl.http_request_body_stream = false →
        s_aws_input_stream_get_length impl lenv = (.AWS_OP_ERR, none))
    ∧ (impl.http_request_body_stream = true → lenv.env_available = true →
        lenv.length_exception = false →
        s_aws_input_stream_get_length impl lenv = (.AWS_OP_SUCCESS, some lenv.length_value)) := by
  refine ⟨?_, ?_, ?_, ?_, ?_⟩
  · simp [s_aws_input_stream_read, hv]
  · simp [s_aws_input_stream_seek, hv]
  · simp [s_aws_input_stream_get_status, hv]
  · intro hs; simp [s_aws_input_stream_get_length, hs]
  · intro hs he hx; simp [s_aws_input_stream_get_length, hs, he, hx]

/-- Witness for the amended C8 at a concrete invalidated adapter. -/
theorem claim_C8_witness :
    s_aws_input_stream_get_length ⟨true, true, false⟩ ⟨true, 9, false⟩ =
      (.AWS_OP_SUCCESS, some 9)
    ∧ s_aws_input_stream_read ⟨true, true, false⟩ ⟨0, 8⟩ ⟨true, true, false, 1⟩ =
      (.AWS_OP_ERR_raised .AWS_ERROR_HTTP_INVALID_BODY_STREAM, ⟨true, true, false⟩, ⟨0, 8⟩) :=
  ⟨(claim_C8_amended ⟨true, true, false⟩ ⟨0, 8⟩ ⟨true, true, false, 1⟩ 0 .AWS_SSB_BEGIN
      ⟨true, true, false⟩ ⟨true, 9, false⟩ rfl).2.2.2.2 rfl rfl rfl,
   (claim_C8_amended ⟨true, true, false⟩ ⟨0, 8⟩ ⟨true, true, false, 1⟩ 0 .AWS_SSB_BEGIN
      ⟨true, true, false⟩ ⟨true, 9, false⟩ rfl).1⟩

/-- C9: on a valid producer-attached adapter whose `body_done` flag is set,
every Read succeeds, changes nothing (zero bytes appended) and never reaches
the producer callback (the outcome is the same for every call environment);
and any Seek that returns success clears `body_done`, re-arming reads. -/
theorem claim_C9 :
    (∀ (impl : aws_http_request_body_stream_impl) (dest : aws_byte_buf) (env : ReadCallEnv),
        impl.is_valid = true → impl.http_request_body_stream = true → impl.body_done = true →
        s_aws_input_stream_read impl dest env = (.AWS_OP_SUCCESS, impl, dest))
    ∧ (∀ (impl : aws_http_request_body_stream_impl) (offset : Int)
        (basis : aws_stream_seek_basis) (env : SeekCallEnv),
        (s_aws_input_stream_seek impl offset basis env).1 = .AWS_OP_SUCCESS →
        (s_aws_input_stream_seek impl offset basis env).2.body_done = false) := by
  constructor
  · intro impl dest env hv hs hd
    simp [s_aws_input_stream_read, hv, hs, hd]
  · intro impl offset basis env h
    revert h
    simp only [s_aws_input_stream_seek]
    split_ifs <;> simp_all

/-- Witness for C9 at a concrete drained adapter and a concrete successful
seek. -/
theorem claim_C9_witness :
    s_aws_input_stream_read ⟨true, true, true⟩ ⟨3, 8⟩ ⟨true, false, true, 5⟩ =
      (.AWS_OP_SUCCESS, ⟨true, true, true⟩, ⟨3, 8⟩)
    ∧ (s_aws_input_stream_seek ⟨true, true, true⟩ 0 .AWS_SSB_BEGIN
        ⟨true, true, false⟩).2.body_done = false :=
  ⟨claim_C9.1 ⟨true, true, true⟩ ⟨3, 8⟩ ⟨true, false, true, 5⟩ rfl rfl rfl,
   claim_C9.2 ⟨true, true, true⟩ 0 .AWS_SSB_BEGIN ⟨true, true, false⟩ rfl⟩

/-- C10: on a valid producer-attached adapter that is not yet done, a Read
whose `sendOutgoingBody` callback raises a foreign exception reports the
callback-failure error and leaves the destination length untouched, yet
`body_done` has already been overwritten with the boolean the callback
returned — the error path is not atomic with respect to `body_done`. -/
theorem claim_C10 (impl : aws_http_request_body_stream_impl) (dest : aws_byte_buf)
    (env : ReadCallEnv) (hv : impl.is_valid = true)
    (hs : impl.http_request_body_stream = true) (hd : impl.body_done = false)
    (he : env.env_available = true) (hx : env.send_exception = true) :
    s_aws_input_stream_read impl dest env =
      (.AWS_OP_ERR_raised .AWS_ERROR_HTTP_CALLBACK_FAILURE,
        { impl with body_done := env.send_result }, dest) := by
  simp [s_aws_input_stream_read, hv, hs, hd, he, hx]

/-- Witness for C10: the callback returns true while raising an exception,
and `body_done` ends true even though the read reports failure. -/
theorem claim_C10_witness :
    s_aws_input_stream_read ⟨true, false, true⟩ ⟨2, 8⟩ ⟨true, true, true, 3⟩ =
      (.AWS_OP_ERR_raised .AWS_ERROR_HTTP_CALLBACK_FAILURE, ⟨true, true, true⟩, ⟨2, 8⟩) :=
  claim_C10 ⟨true, false, true⟩ ⟨2, 8⟩ ⟨true, true, true, 3⟩ rfl rfl rfl rfl rfl

/-- Reading a 32-bit big-endian prefix back out of the bytes that
`aws_byte_buf_write_be32` produced yields the low 32 bits of the written
value and leaves the rest of the buffer. -/
theorem aws_byte_cursor_read_be32_be32Bytes (n : Nat) (rest : List Nat) :
    aws_byte_cursor_read_be32 (be32Bytes n ++ rest) = some (n % 2 ^ 32, rest) := by
  show aws_byte_cursor_read_be32
      (n / 2 ^ 24 % 256 :: n / 2 ^ 16 % 256 :: n / 2 ^ 8 % 256 :: n % 256 :: rest) = _
  simp [aws_byte_cursor_read_be32]
  omega

/-- Advancing a cursor by exactly the length of its leading segment returns
that segment and the remainder. -/
theorem aws_byte_cursor_advance_append (xs rest : List Nat) :
    aws_byte_cursor_advance (xs ++ rest) xs.length = some (xs, rest) := by
  simp [aws_byte_cursor_advance, List.take_left, List.drop_left]

/-- Advancing a cursor past its end fails. -/
theorem aws_byte_cursor_advance_too_long (cur : List Nat) (len : Nat) (h : cur.length < len) :
    aws_byte_cursor_advance cur len = none := by
  simp [aws_byte_cursor_advance]
  omega

/-- A successful 32-bit read consumes exactly four bytes. -/
theorem aws_byte_cursor_read_be32_length {blob r : List Nat} {n : Nat}
    (h : aws_byte_cursor_read_be32 blob = some (n, r)) : blob.length = r.length + 4 := by
  rcases blob with _ | ⟨b0, _ | ⟨b1, _ | ⟨b2, _ | ⟨b3, rest⟩⟩⟩⟩ <;>
    simp [aws_byte_cursor_read_be32] at h
  rcases h with ⟨h1, h2⟩
  subst h2
  simp

/-- One successful iteration of the header-decoding loop: both LP fields
parse, one header is appended, and the loop continues on the remainder with
one unit of fuel spent. -/
theorem loop_step (fuel : Nat) (hs : List aws_http_header) (blob r1 r2 r3 r4 name value : List Nat)
    (nameLen valueLen : Nat)
    (hne : blob ≠ [])
    (hrd1 : aws_byte_cursor_read_be32 blob = some (nameLen, r1))
    (hadv1 : aws_byte_cursor_advance r1 nameLen = some (name, r2))
    (hrd2 : aws_byte_cursor_read_be32 r2 = some (valueLen, r3))
    (hadv2 : aws_byte_cursor_advance r3 valueLen = some (value, r4)) :
    s_unmarshal_http_headers_loop (fuel + 1) hs blob =
      s_unmarshal_http_headers_loop fuel (hs ++ [⟨name, value⟩]) r4 := by
  rw [s_unmarshal_http_headers_loop.eq_def]
  simp [hne, hrd1, hadv1, hrd2, hadv2]

/-- The header-decoding loop consumes one marshalled header in one
iteration. -/
theorem loop_enc_step (fuel : Nat) (hs : List aws_http_header) (name value rest : List Nat)
    (h1 : name.length < 2 ^ 32) (h2 : value.length < 2 ^ 32) :
    s_unmarshal_http_headers_loop (fuel + 1) hs
        (be32Bytes name.length ++ (name ++ (be32Bytes value.length ++ (value ++ rest)))) =
      s_unmarshal_http_headers_loop fuel (hs ++ [⟨name, value⟩]) rest :=
  loop_step fuel hs
    (be32Bytes name.length ++ (name ++ (be32Bytes value.length ++ (value ++ rest))))
    (name ++ (be32Bytes value.length ++ (value ++ rest)))
    (be32Bytes value.length ++ (value ++ rest))
    (value ++ rest) rest name value name.length value.length
    (by simp [be32Bytes])
    (by rw [aws_byte_cursor_read_be32_be32Bytes, Nat.mod_eq_of_lt h1])
    (aws_byte_cursor_advance_append name (be32Bytes value.length ++ (value ++ rest)))
    (by rw [aws_byte_cursor_read_be32_be32Bytes, Nat.mod_eq_of_lt h2])
    (aws_byte_cursor_advance_append value rest)

/-- Marshalling headers only appends to the output buffer. -/
theorem marshal_headers_append (buf : List Nat) (H : List aws_http_header) :
    aws_marshal_http_headers_to_dynamic_buffer buf H =
      buf ++ aws_marshal_http_headers_to_dynamic_buffer [] H := by
  induction H generalizing buf with
  | nil => simp [aws_marshal_http_headers_to_dynamic_buffer]
  | cons h T ih =>
    simp only [aws_marshal_http_headers_to_dynamic_buffer]
    rw [ih, ih (s_marshal_http_header_to_buffer [] h.name h.value)]
    simp [s_marshal_http_header_to_buffer, aws_byte_buf_write_be32]

/-- The marshalled form of a non-empty header list, exposed as the four
concatenated pieces of its first header followed by the rest. -/
theorem marshal_headers_cons (h : aws_http_header) (T : List aws_http_header) :
    aws_marshal_http_headers_to_dynamic_buffer [] (h :: T) =
      be32Bytes h.name.length ++ (h.name ++ (be32Bytes h.value.length ++ (h.value ++
        aws_marshal_http_headers_to_dynamic_buffer [] T))) := by
  simp only [aws_marshal_http_headers_to_dynamic_buffer]
  rw [marshal_headers_append]
  simp [s_marshal_http_header_to_buffer, aws_byte_buf_write_be32]

/-- Round-trip of the header codec at the loop level: decoding the
marshalled form of any header list (whose field lengths are u32
representable) succeeds and appends exactly those headers, for any
sufficient fuel. -/
theorem unmarshal_marshal_headers_loop (H : List aws_http_header) :
    ∀ (fuel : Nat) (hs : List aws_http_header), H.length ≤ fuel →
      (∀ h ∈ H, h.name.length < 2 ^ 32 ∧ h.value.length < 2 ^ 32) →
      s_unmarshal_http_headers_loop fuel hs (aws_marshal_http_headers_to_dynamic_buffer [] H) =
        (.AWS_OP_SUCCESS, hs ++ H) := by
  induction H with
  | nil =>
    intro fuel hs _ _
    rw [s_unmarshal_http_headers_loop.eq_def]
    simp [aws_marshal_http_headers_to_dynamic_buffer]
  | cons h T ih =>
    intro fuel hs hf hlens
    obtain ⟨f, rfl⟩ : ∃ f, fuel = f + 1 := ⟨fuel - 1, by simp at hf; omega⟩
    have heta : (⟨h.name, h.value⟩ : aws_http_header) = h := rfl
    rw [marshal_headers_cons,
      loop_enc_step f hs h.name h.value _ (hlens h (List.mem_cons_self h T)).1
        (hlens h (List.mem_cons_self h T)).2, heta,
      ih f (hs ++ [h]) (by simp only [List.length_cons] at hf; omega)
        (fun x hx => hlens x (List.mem_cons_of_mem h hx))]
    simp

/-- A header list is never longer than its marshalled byte form (each header
costs at least eight bytes), so the wrappers always start the loop with
enough fuel. -/
theorem length_le_marshal (H : List aws_http_header) :
    H.length ≤ (aws_marshal_http_headers_to_dynamic_buffer [] H).length := by
  induction H with
  | nil => simp [aws_marshal_http_headers_to_dynamic_buffer]
  | cons h T ih =>
    rw [marshal_headers_cons]
    simp [be32Bytes]
    omega

/-- C1: request decode fails with `AWS_ERROR_INVALID_ARGUMENT` whenever a
declared length-prefix field value exceeds the bytes remaining, and the
over-length field is never delivered (the object state returned with the
error does not contain it): the four conjuncts cover the method and path
fields of `s_unmarshal_http_request_without_version` and the name and value
fields of the header-decoding loop of `s_unmarshal_http_headers` (the header
loop inside the request decoder is the same loop). -/
theorem claim_C1 :
    (∀ (message : aws_http_message) (blob r1 : List Nat) (l1 : Nat),
        message.version ≠ AWS_HTTP_VERSION_2 →
        aws_byte_cursor_read_be32 blob = some (l1, r1) → r1.length < l1 →
        s_unmarshal_http_request_without_version message blob =
          (.AWS_OP_ERR_raised .AWS_ERROR_INVALID_ARGUMENT, message))
    ∧ (∀ (message : aws_http_message) (blob r1 method r2 r3 : List Nat) (l1 l2 : Nat),
        message.version ≠ AWS_HTTP_VERSION_2 →
        aws_byte_cursor_read_be32 blob = some (l1, r1) →
        aws_byte_cursor_advance r1 l1 = some (method, r2) →
        aws_byte_cursor_read_be32 r2 = some (l2, r3) → r3.length < l2 →
        s_unmarshal_http_request_without_version message blob =
          (.AWS_OP_ERR_raised .AWS_ERROR_INVALID_ARGUMENT, { message with method := method }))
    ∧ (∀ (hs : List aws_http_header) (blob r1 : List Nat) (l1 : Nat),
        aws_byte_cursor_read_be32 blob = some (l1, r1) → r1.length < l1 →
        s_unmarshal_http_headers hs blob =
          (.AWS_OP_ERR_raised .AWS_ERROR_INVALID_ARGUMENT, hs))
    ∧ (∀ (hs : List aws_http_header) (blob r1 name r2 r3 : List Nat) (l1 l2 : Nat),
        aws_byte_cursor_read_be32 blob = some (l1, r1) →
        aws_byte_cursor_advance r1 l1 = some (name, r2) →
        aws_byte_cursor_read_be32 r2 = some (l2, r3) → r3.length < l2 →
        s_unmarshal_http_headers hs blob =
          (.AWS_OP_ERR_raised .AWS_ERROR_INVALID_ARGUMENT, hs)) := by
  refine ⟨?_, ?_, ?_, ?_⟩
  · intro message blob r1 l1 hv hrd hlen
    simp [s_unmarshal_http_request_without_version, hv, hrd,
      aws_byte_cursor_advance_too_long r1 l1 hlen]
  · intro message blob r1 method r2 r3 l1 l2 hv hrd1 hadv1 hrd2 hlen
    simp [s_unmarshal_http_request_without_version, hv, hrd1, hadv1, hrd2,
      aws_byte_cursor_advance_too_long r3 l2 hlen]
  · intro hs blob r1 l1 hrd hlen
    have hblen := aws_byte_cursor_read_be32_length hrd
    rcases blob with _ | ⟨b, bs⟩
    · simp at hblen
    · show s_unmarshal_http_headers_loop (b :: bs).length hs (b :: bs) = _
      rw [List.length_cons, s_unmarshal_http_headers_loop.eq_def]
      simp [hrd, aws_byte_cursor_advance_too_long r1 l1 hlen]
  · intro hs blob r1 name r2 r3 l1 l2 hrd1 hadv1 hrd2 hlen
    have hblen := aws_byte_cursor_read_be32_length hrd1
    rcases blob with _ | ⟨b, bs⟩
    · simp at hblen
    · show s_unmarshal_http_headers_loop (b :: bs).length hs (b :: bs) = _
      rw [List.length_cons, s_unmarshal_http_headers_loop.eq_def]
      simp [hrd1, hadv1, hrd2, aws_byte_cursor_advance_too_long r3 l2 hlen]

/-- Witness for C1: the spec scenario (a name length field of 5 with only 3
bytes remaining) and its three variants, each failing with
`AWS_ERROR_INVALID_ARGUMENT` and delivering no truncated field. -/
theorem claim_C1_witness :
    s_unmarshal_http_request_without_version ⟨2, [], [], []⟩ [0, 0, 0, 5, 1, 2, 3] =
      (.AWS_OP_ERR_raised .AWS_ERROR_INVALID_ARGUMENT, ⟨2, [], [], []⟩)
    ∧ s_unmarshal_http_request_without_version ⟨2, [], [], []⟩
        [0, 0, 0, 1, 65, 0, 0, 0, 9, 1, 2] =
      (.AWS_OP_ERR_raised .AWS_ERROR_INVALID_ARGUMENT, ⟨2, [65], [], []⟩)
    ∧ s_unmarshal_http_headers [] [0, 0, 0, 5, 1, 2, 3] =
      (.AWS_OP_ERR_raised .AWS_ERROR_INVALID_ARGUMENT, [])
    ∧ s_unmarshal_http_headers [⟨[1], [2]⟩] [0, 0, 0, 1, 65, 0, 0, 0, 9, 1, 2] =
      (.AWS_OP_ERR_raised .AWS_ERROR_INVALID_ARGUMENT, [⟨[1], [2]⟩]) :=
  ⟨claim_C1.1 ⟨2, [], [], []⟩ [0, 0, 0, 5, 1, 2, 3] [1, 2, 3] 5 (by decide) (by decide)
      (by decide),
   claim_C1.2.1 ⟨2, [], [], []⟩ [0, 0, 0, 1, 65, 0, 0, 0, 9, 1, 2] [65, 0, 0, 0, 9, 1, 2]
      [65] [0, 0, 0, 9, 1, 2] [1, 2] 1 9 (by decide) (by decide) (by decide) (by decide)
      (by decide),
   claim_C1.2.2.1 [] [0, 0, 0, 5, 1, 2, 3] [1, 2, 3] 5 (by decide) (by decide),
   claim_C1.2.2.2 [⟨[1], [2]⟩] [0, 0, 0, 1, 65, 0, 0, 0, 9, 1, 2] [65, 0, 0, 0, 9, 1, 2]
      [65] [0, 0, 0, 9, 1, 2] [1, 2] 1 9 (by decide) (by decide) (by decide) (by decide)⟩

/-- C3: applying a marshalled frame whose version field differs from the
destination request's version fails with `AWS_ERROR_INVALID_ARGUMENT`, and
the request comes out with its headers cleared (the unconditional
`aws_http_headers_clear` precedes the version check) but its version, method
and path untouched. -/
theorem claim_C3 (message : aws_http_message) (blob rest : List Nat) (v : Nat)
    (hrd : aws_byte_cursor_read_be32 blob = some (v, rest)) (hne : v ≠ message.version) :
    aws_apply_java_http_request_changes_to_native_request message blob =
      (.AWS_OP_ERR_raised .AWS_ERROR_INVALID_ARGUMENT, { message with headers := [] }) := by
  simp [aws_apply_java_http_request_changes_to_native_request,
    s_unmarshal_http_request_to_get_version, hrd, hne]

/-- Witness for C3: an HTTP/2-version frame applied to an HTTP/1.1 request
with one existing header fails and leaves the headers empty, everything else
unchanged. -/
theorem claim_C3_witness :
    aws_apply_java_http_request_changes_to_native_request ⟨2, [71], [47], [⟨[1], [2]⟩]⟩
        [0, 0, 0, 3] =
      (.AWS_OP_ERR_raised .AWS_ERROR_INVALID_ARGUMENT, ⟨2, [71], [47], []⟩) :=
  claim_C3 ⟨2, [71], [47], [⟨[1], [2]⟩]⟩ [0, 0, 0, 3] [] 3 (by decide) (by decide)

/-- C4: decoding a frame into an HTTP/2-version request reads the method and
path length-prefix fields and fails with `AWS_ERROR_INVALID_ARGUMENT` as soon
as either declared length is non-zero; only when both are zero does it
proceed (to the header-decoding loop). -/
theorem claim_C4 :
    (∀ (message : aws_http_message) (blob r1 : List Nat) (l1 : Nat),
        message.version = AWS_HTTP_VERSION_2 →
        aws_byte_cursor_read_be32 blob = some (l1, r1) → l1 ≠ 0 →
        s_unmarshal_http_request_without_version message blob =
          (.AWS_OP_ERR_raised .AWS_ERROR_INVALID_ARGUMENT, message))
    ∧ (∀ (message : aws_http_message) (blob r1 r2 : List Nat) (l2 : Nat),
        message.version = AWS_HTTP_VERSION_2 →
        aws_byte_cursor_read_be32 blob = some (0, r1) →
        aws_byte_cursor_read_be32 r1 = some (l2, r2) → l2 ≠ 0 →
        s_unmarshal_http_request_without_version message blob =
          (.AWS_OP_ERR_raised .AWS_ERROR_INVALID_ARGUMENT, message))
    ∧ (∀ (message : aws_http_message) (blob r1 r2 : List Nat),
        message.version = AWS_HTTP_VERSION_2 →
        aws_byte_cursor_read_be32 blob = some (0, r1) →
        aws_byte_cursor_read_be32 r1 = some (0, r2) →
        s_unmarshal_http_request_without_version message blob =
          ((s_unmarshal_http_headers message.headers r2).1,
            { message with headers := (s_unmarshal_http_headers message.headers r2).2 })) := by
  refine ⟨?_, ?_, ?_⟩
  · intro message blob r1 l1 hv hrd hne
    simp [s_unmarshal_http_request_without_version, hv, hrd, hne]
  · intro message blob r1 r2 l2 hv hrd1 hrd2 hne
    simp [s_unmarshal_http_request_without_version, hv, hrd1, hrd2, hne]
  · intro message blob r1 r2 hv hrd1 hrd2
    simp [s_unmarshal_http_request_without_version, hv, hrd1, hrd2]

/-- Witness for C4: an HTTP/2 frame with a non-zero method length fails, one
with a non-zero path length fails, and one with both zero decodes its
headers. -/
theorem claim_C4_witness :
    s_unmarshal_http_request_without_version ⟨3, [], [], []⟩ [0, 0, 0, 1, 65, 0, 0, 0, 0] =
      (.AWS_OP_ERR_raised .AWS_ERROR_INVALID_ARGUMENT, ⟨3, [], [], []⟩)
    ∧ s_unmarshal_http_request_without_version ⟨3, [], [], []⟩
        [0, 0, 0, 0, 0, 0, 0, 2, 66, 67] =
      (.AWS_OP_ERR_raised .AWS_ERROR_INVALID_ARGUMENT, ⟨3, [], [], []⟩)
    ∧ s_unmarshal_http_request_without_version ⟨3, [], [], []⟩
        [0, 0, 0, 0, 0, 0, 0, 0, 0, 0, 0, 1, 72, 0, 0, 0, 1, 120] =
      (.AWS_OP_SUCCESS, ⟨3, [], [], [⟨[72], [120]⟩]⟩) :=
  ⟨claim_C4.1 ⟨3, [], [], []⟩ [0, 0, 0, 1, 65, 0, 0, 0, 0] [65, 0, 0, 0, 0] 1 rfl (by decide)
      (by decide),
   claim_C4.2.1 ⟨3, [], [], []⟩ [0, 0, 0, 0, 0, 0, 0, 2, 66, 67] [0, 0, 0, 2, 66, 67] [66, 67] 2
      rfl (by decide) (by decide) (by decide),
   by
     rw [claim_C4.2.2 ⟨3, [], [], []⟩ [0, 0, 0, 0, 0, 0, 0, 0, 0, 0, 0, 1, 72, 0, 0, 0, 1, 120]
       [0, 0, 0, 0, 0, 0, 0, 1, 72, 0, 0, 0, 1, 120] [0, 0, 0, 1, 72, 0, 0, 0, 1, 120] rfl
       (by decide) (by decide)]
     decide⟩

/-- The marshalled form of a request, exposed as the concatenation of its
version, method LP, path LP and marshalled headers. -/
theorem marshall_request_shape (R : aws_http_message) :
    s_marshall_http_request R [] =
      be32Bytes R.version ++ (be32Bytes R.method.length ++ (R.method ++
        (be32Bytes R.path.length ++ (R.path ++
          aws_marshal_http_headers_to_dynamic_buffer [] R.headers)))) := by
  unfold s_marshall_http_request
  rw [marshal_headers_append]
  simp [aws_byte_buf_write_be32]

/-- Round-trip of the header codec at the wrapper level. -/
theorem unmarshal_marshal_headers (H : List aws_http_header) (hs : List aws_http_header)
    (hh : ∀ h ∈ H, h.name.length < 2 ^ 32 ∧ h.value.length < 2 ^ 32) :
    s_unmarshal_http_headers hs (aws_marshal_http_headers_to_dynamic_buffer [] H) =
      (.AWS_OP_SUCCESS, hs ++ H) := by
  unfold s_unmarshal_http_headers
  exact unmarshal_marshal_headers_loop H _ hs (length_le_marshal H) hh

/-- C2: decoding the marshalled form of a request back into that request
succeeds and reproduces it exactly — same version, method, path and ordered
header list.  The hypotheses delimit the representable domain: every field
length fits in a u32 (the spec declares longer fields undefined by design)
and an HTTP/2 request carries empty method and path wire fields (the spec's
data-model invariant for version 2). -/
theorem claim_C2 (R : aws_http_message)
    (hver : R.version < 2 ^ 32)
    (hm : R.method.length < 2 ^ 32)
    (hp : R.path.length < 2 ^ 32)
    (hh : ∀ h ∈ R.headers, h.name.length < 2 ^ 32 ∧ h.value.length < 2 ^ 32)
    (h2 : R.version = AWS_HTTP_VERSION_2 → R.method = [] ∧ R.path = []) :
    aws_apply_java_http_request_changes_to_native_request R (s_marshall_http_request R []) =
      (.AWS_OP_SUCCESS, R) := by
  obtain ⟨v, m, p, H⟩ := R
  dsimp only at hver hm hp hh h2 ⊢
  have huns : s_unmarshal_http_headers [] (aws_marshal_http_headers_to_dynamic_buffer [] H) =
      (.AWS_OP_SUCCESS, H) := by
    rw [unmarshal_marshal_headers H [] hh]
    simp
  rw [marshall_request_shape]
  dsimp only
  have hget : ∀ rest : List Nat, s_unmarshal_http_request_to_get_version
      (be32Bytes v ++ rest) = (v, rest) := by
    intro rest
    simp only [s_unmarshal_http_request_to_get_version, aws_byte_cursor_read_be32_be32Bytes,
      Nat.mod_eq_of_lt hver]
  by_cases hv : v = AWS_HTTP_VERSION_2
  · obtain ⟨hm0, hp0⟩ := h2 hv
    subst hv hm0 hp0
    simp only [aws_apply_java_http_request_changes_to_native_request, hget, ne_eq,
      eq_self_iff_true, not_true, if_false, List.length_nil, List.nil_append,
      s_unmarshal_http_request_without_version, aws_byte_cursor_read_be32_be32Bytes,
      Nat.zero_mod, huns, ite_false, not_false_eq_true, ite_true]
  · simp only [aws_apply_java_http_request_changes_to_native_request, hget, ne_eq,
      eq_self_iff_true, not_true, if_false, s_unmarshal_http_request_without_version, hv,
      not_false_eq_true, ite_true, ite_false, aws_byte_cursor_read_be32_be32Bytes,
      Nat.mod_eq_of_lt hm, Nat.mod_eq_of_lt hp, aws_byte_cursor_advance_append, huns]

/-- Witness for C2: the spec scenario — a version-1.1 GET request for path
`/a` with headers `[("Host", "x"), ("X", "")]` round-trips exactly. -/
theorem claim_C2_witness :
    aws_apply_java_http_request_changes_to_native_request
        ⟨2, [71, 69, 84], [47, 97], [⟨[72, 111, 115, 116], [120]⟩, ⟨[88], []⟩]⟩
        (s_marshall_http_request
          ⟨2, [71, 69, 84], [47, 97], [⟨[72, 111, 115, 116], [120]⟩, ⟨[88], []⟩]⟩ []) =
      (.AWS_OP_SUCCESS,
        ⟨2, [71, 69, 84], [47, 97], [⟨[72, 111, 115, 116], [120]⟩, ⟨[88], []⟩]⟩) :=
  claim_C2 ⟨2, [71, 69, 84], [47, 97], [⟨[72, 111, 115, 116], [120]⟩, ⟨[88], []⟩]⟩
    (by decide) (by decide) (by decide) (by decide) (by decide)
